import Mathlib

/-!
Verification of the Panchang bot's response-normalization and markup-safe
formatting pipeline (source: src/jojo.py), as a shallow embedding in Lean.

Python dictionaries that the formatter probes with `.get` are embedded as
structures of `Option`-typed fields covering exactly the keys the source
reads (plus the keys the spec says upstream payloads may carry, such as
`output`); a JSON value that may be an int or a string is embedded as
`PyScalar`.  Machine floats appear only in the fixed location constants and
are embedded as rationals.  All functions are total; a Python code path that
raises and is caught is modelled by the explicit alternative the handler
returns.
-/

set_option maxRecDepth 10000

namespace TithiBot

/-! ### Characters and digit strings -/

/-- The decimal digit character of `n % 10`. -/
def digitChar (n : Nat) : Char :=
  match n % 10 with
  | 0 => '0' | 1 => '1' | 2 => '2' | 3 => '3' | 4 => '4'
  | 5 => '5' | 6 => '6' | 7 => '7' | 8 => '8' | _ => '9'

/-- Numeric value of a decimal digit character. -/
def digitVal (c : Char) : Nat := c.toNat - 48

/-- Two-digit zero-padded decimal rendering (Python `%02d`, and the zero
padding of `%I`/`%M`/`%S`/`%d` in `strftime`). -/
def pad2 (n : Nat) : List Char := [digitChar (n / 10), digitChar n]

/-- Four-digit zero-padded decimal rendering (the `%Y` field of a wire
timestamp / `%d-%m-%Y` date string). -/
def pad4 (n : Nat) : List Char :=
  [digitChar (n / 1000), digitChar (n / 100), digitChar (n / 10), digitChar n]

/-- Value of a list of decimal digit characters, most significant first. -/
def digitsToNat (l : List Char) : Nat :=
  l.foldl (fun a c => a * 10 + digitVal c) 0

/-- Split a character list at every occurrence of `sep` (Python
`str.split(sep)` on the separators the date/time formats use). -/
def splitCh (sep : Char) : List Char → List (List Char)
  | [] => [[]]
  | c :: cs =>
    match splitCh sep cs with
    | [] => [[]]
    | r :: rs => if c = sep then [] :: r :: rs else (c :: r) :: rs

/-! ### `escape_markdown_v2` (src/jojo.py lines 94-98)

`re.sub` with the single-character class `([.*_`\-\[\]()~>#+=|{}\!])` and the
replacement `\\\1` maps each matching character to a backslash followed by
that character and leaves every other character unchanged; `escapeList` is
that left-to-right scan. -/

/-- The reserved characters of the MarkdownV2 escape class in the source. -/
def isReservedChar (c : Char) : Bool :=
  c = '.' || c = '*' || c = '_' || c = '`' || c = '-' || c = '[' || c = ']' ||
  c = '(' || c = ')' || c = '~' || c = '>' || c = '#' || c = '+' || c = '=' ||
  c = '|' || c = '{' || c = '}' || c = '!'

/-- The scan `re.sub(r"([.*_`\-\[\]()~>#+=|{}\!])", r'\\\1', ·)` performs. -/
def escapeList : List Char → List Char
  | [] => []
  | c :: cs =>
    if isReservedChar c then '\\' :: c :: escapeList cs
    else c :: escapeList cs

/-- `escape_markdown_v2` from the source. -/
def escape_markdown_v2 (text : String) : String := ⟨escapeList text.data⟩

/-- Left inverse of the escape scan: drop the one backslash standing before
each reserved character (used to state that escaping inserts exactly one
backslash per reserved character and changes nothing else). -/
def unescapeList : List Char → List Char
  | [] => []
  | [c] => [c]
  | c :: d :: rest =>
    if c = '\\' ∧ isReservedChar d then d :: unescapeList rest
    else c :: unescapeList (d :: rest)

/-! ### Datetimes (Python `datetime` restricted to what the source uses) -/

/-- A naive `datetime` value: the fields `datetime(year, month, day, hour,
minute, second)` carries.  The `datetime` constructor's range checks are
modelled in the parsers that build these values. -/
structure PyDatetime where
  year : Nat
  month : Nat
  day : Nat
  hour : Nat
  minute : Nat
  second : Nat
deriving DecidableEq, Repr

/-- Gregorian leap-year rule (Python `calendar`/`datetime`). -/
def isLeapYear (y : Nat) : Bool :=
  (y % 4 == 0 && y % 100 != 0) || y % 400 == 0

/-- Days in a month, as `datetime` validates the day field. -/
def daysInMonth (y m : Nat) : Nat :=
  if m = 2 then (if isLeapYear y then 29 else 28)
  else if m = 4 ∨ m = 6 ∨ m = 9 ∨ m = 11 then 30
  else 31

/-- `strftime` `%b`: abbreviated month name (C locale). -/
def monthAbbrev (m : Nat) : String :=
  match m with
  | 1 => "Jan" | 2 => "Feb" | 3 => "Mar" | 4 => "Apr" | 5 => "May" | 6 => "Jun"
  | 7 => "Jul" | 8 => "Aug" | 9 => "Sep" | 10 => "Oct" | 11 => "Nov" | _ => "Dec"

/-- `strftime` `%B`: full month name (C locale). -/
def monthFullName (m : Nat) : String :=
  match m with
  | 1 => "January" | 2 => "February" | 3 => "March" | 4 => "April"
  | 5 => "May" | 6 => "June" | 7 => "July" | 8 => "August"
  | 9 => "September" | 10 => "October" | 11 => "November" | _ => "December"

/-- Day of week of a Gregorian date, 0 = Sunday (Sakamoto's method). -/
def weekdayIdx (y m d : Nat) : Nat :=
  let t := [0, 3, 2, 5, 0, 3, 5, 1, 4, 6, 2, 4]
  let y' := if m < 3 then y - 1 else y
  (y' + y' / 4 + y' / 400 + (t.getD (m - 1) 0) + d + 700 - y' / 100) % 7

/-- `strftime` `%A`: full weekday name (C locale). -/
def weekdayName (y m d : Nat) : String :=
  match weekdayIdx y m d with
  | 0 => "Sunday" | 1 => "Monday" | 2 => "Tuesday" | 3 => "Wednesday"
  | 4 => "Thursday" | 5 => "Friday" | _ => "Saturday"

/-- `strftime` `%I`: hour on the 12-hour clock, `01`-`12`. -/
def hour12 (h : Nat) : Nat := if h % 12 = 0 then 12 else h % 12

/-- `strftime` `%p` (C locale). -/
def ampm (h : Nat) : String := if h < 12 then "AM" else "PM"

/-- `dt_obj.strftime("%I:%M:%S %p")` (the query-time header string). -/
def strftimeTime12 (dt : PyDatetime) : String :=
  ⟨pad2 (hour12 dt.hour)⟩ ++ ":" ++ ⟨pad2 dt.minute⟩ ++ ":" ++
    ⟨pad2 dt.second⟩ ++ " " ++ ampm dt.hour

/-- `dt_obj.strftime("%A, %B %d, %Y")` (the query-date header string). -/
def strftimeLongDate (dt : PyDatetime) : String :=
  weekdayName dt.year dt.month dt.day ++ ", " ++ monthFullName dt.month ++
    " " ++ ⟨pad2 dt.day⟩ ++ ", " ++ toString dt.year

/-! ### `datetime.strptime` for the two fixed formats

CPython's `_strptime` matches each numeric directive with a digit pattern
(`%Y` exactly four digits, `%m`/`%d`/`%H`/`%M`/`%S` one or two digits),
requires the literal separators in between, rejects trailing text, and the
`datetime` constructor then range-checks the fields (month 1-12, day within
the month, hour below 24, minute/second below 60, year at least 1).  Both
the regex rejections and the constructor's `ValueError` are caught by the
source and produce the same fallback, so the embedding folds them into one
`Option`-returning parser. -/

/-- A numeric field of one or two decimal digit characters. -/
def parseField2 (l : List Char) : Option Nat :=
  if l ≠ [] ∧ l.length ≤ 2 ∧ l.all Char.isDigit then some (digitsToNat l)
  else none

/-- The `%Y` field: exactly four decimal digit characters. -/
def parseYearField (l : List Char) : Option Nat :=
  if l.length = 4 ∧ l.all Char.isDigit then some (digitsToNat l) else none

/-- `datetime.strptime(s, '%Y-%m-%d %H:%M:%S')` together with the
constructor's range checks; `none` models the `ValueError` the source
catches. -/
def parseWire (s : String) : Option PyDatetime :=
  match splitCh ' ' s.data with
  | [datePart, timePart] =>
    match splitCh '-' datePart, splitCh ':' timePart with
    | [ys, ms, ds], [hs, mins, ss] => do
      let y ← parseYearField ys
      let m ← parseField2 ms
      let d ← parseField2 ds
      let h ← parseField2 hs
      let mi ← parseField2 mins
      let sec ← parseField2 ss
      if 1 ≤ y ∧ 1 ≤ m ∧ m ≤ 12 ∧ 1 ≤ d ∧ d ≤ daysInMonth y m ∧
          h ≤ 23 ∧ mi ≤ 59 ∧ sec ≤ 59 then
        some ⟨y, m, d, h, mi, sec⟩
      else none
    | _, _ => none
  | _ => none

/-- `datetime.strptime(s, '%d-%m-%Y')` together with the constructor's range
checks, returning `(day, month, year)`; `none` models the `ValueError` the
command handler catches. -/
def parseDDMMYYYY (s : String) : Option (Nat × Nat × Nat) :=
  match splitCh '-' s.data with
  | [ds, ms, ys] => do
    let d ← parseField2 ds
    let m ← parseField2 ms
    let y ← parseYearField ys
    if 1 ≤ y ∧ 1 ≤ m ∧ m ≤ 12 ∧ 1 ≤ d ∧ d ≤ daysInMonth y m then
      some (d, m, y)
    else none
  | _ => none

/-- The nested helper `format_completion_time` (src/jojo.py lines 109-115):
a missing or empty value renders "N/A", a string that fails to parse as
`%Y-%m-%d %H:%M:%S` renders "N/A", and a parsed value renders as
`strftime('%I:%M:%S %p, %b %d')`. -/
def format_completion_time (iso_time : Option String) : String :=
  match iso_time with
  | none => "N/A"
  | some s =>
    if s = "" then "N/A"
    else
      match parseWire s with
      | none => "N/A"
      | some dt =>
        ⟨pad2 (hour12 dt.hour)⟩ ++ ":" ++ ⟨pad2 dt.minute⟩ ++ ":" ++
          ⟨pad2 dt.second⟩ ++ " " ++ ampm dt.hour ++ ", " ++
          monthAbbrev dt.month ++ " " ++ ⟨pad2 dt.day⟩

/-- Python `str.title()` restricted to ASCII: the first letter of every
maximal run of letters is uppercased, later letters of the run lowercased,
all other characters kept. -/
def pyTitleGo : Bool → List Char → List Char
  | _, [] => []
  | prevAlpha, c :: cs =>
    if c.isAlpha then
      (if prevAlpha then c.toLower else c.toUpper) :: pyTitleGo true cs
    else c :: pyTitleGo false cs

/-- Python `str.title()`. -/
def pyTitle (s : String) : String := ⟨pyTitleGo false s.data⟩

/-! ### The upstream payload as the source probes it

The decoded JSON body is a Python dict probed with `.get`; the embedding is
a structure of `Option`-typed fields covering the keys the source reads,
plus the keys the spec says an upstream payload may carry (the `output`
wrapper, and the conventionally spelled `left_percentage` on the tithi
object).  Values the source passes to `.title()` must be strings; values it
only interpolates may be numbers or strings (`PyScalar`).  In-band `error`
values are taken to be strings. -/

/-- A JSON scalar interpolated with Python `str()`. -/
inductive PyScalar
  | int (n : Int)
  | str (s : String)
deriving DecidableEq, Repr

/-- Python `str()` of a scalar. -/
def pyStr : PyScalar → String
  | .int n => toString n
  | .str s => s

/-- `d.get(key, 'N/A')` for a scalar-valued key, as an f-string renders it. -/
def getScalarD (o : Option PyScalar) : String :=
  match o with
  | none => "N/A"
  | some v => pyStr v

/-- The `tithi` object of the flat complete-panchang shape. -/
structure TithiDict where
  name : Option String := none
  number : Option PyScalar := none
  paksha : Option String := none
  completes_at : Option String := none
  left_precentage : Option PyScalar := none
  left_percentage : Option PyScalar := none
deriving DecidableEq, Repr

/-- The `nakshatra` object of the flat complete-panchang shape. -/
structure NakshatraDict where
  name : Option String := none
  number : Option PyScalar := none
  starts_at : Option String := none
  ends_at : Option String := none
  left_percentage : Option PyScalar := none
deriving DecidableEq, Repr

/-- A `yoga`/`karana` occurrence object. -/
structure YogaKaranaDict where
  name : Option String := none
  number : Option PyScalar := none
  completion : Option String := none
deriving DecidableEq, Repr

/-- The keyed map `{"1": {...}, ...}` under `yoga`/`karana`; the source only
ever reads key `"1"`. -/
structure NumberedMap where
  one : Option YogaKaranaDict := none
deriving DecidableEq, Repr

/-- A decoded upstream JSON body, restricted to the keys the pipeline
reads.  Also the type of the dictionary `fetch_panchang_data` returns. -/
structure PanchangData where
  error : Option String := none
  output : Option String := none
  tithi : Option TithiDict := none
  nakshatra : Option NakshatraDict := none
  yoga : Option NumberedMap := none
  karana : Option NumberedMap := none
  sun_rise : Option String := none
  sun_set : Option String := none
deriving DecidableEq, Repr

/-! ### `format_panchang_table` (src/jojo.py lines 101-162) -/

/-- Truthiness of `panchang_data.get("error")` in the formatter's guard:
the key is present and its value (a string in this embedding) is
non-empty. -/
def errTruthy (o : Option String) : Bool :=
  match o with
  | none => false
  | some s => !(s == "")

/-- The header/prose region of the success message (source lines 123-133):
the query date and query time are escaped, the upstream `sun_rise` and
`sun_set` strings are interpolated as-is.  Source line 132 is a raw
f-string, so its `\|` and trailing `\n` are literal backslash-pipe and
backslash-n; line 133 is a plain f-string whose invalid escape `\|` Python
keeps as backslash-pipe while `\n` is a newline. -/
def headerSection (d : PanchangData) (dt_obj : PyDatetime) : String :=
  let query_date_str := escape_markdown_v2 (strftimeLongDate dt_obj)
  let query_time_str := escape_markdown_v2 (strftimeTime12 dt_obj)
  let sun_rise := (d.sun_rise).getD "N/A"
  let sun_set := (d.sun_set).getD "N/A"
  "üïâÔ∏è *Panchang Details for:* `" ++
    query_date_str ++ "`\n" ++
  "_Time of Query: " ++ query_time_str ++ " IST \\| Theni, TN_ \\n" ++
  "_Sunrise: " ++ sun_rise ++ " \\| Sunset: " ++ sun_set ++ "_\n\n"

/-- The tithi verbatim block (source lines 135-142). -/
def tithiSection (tithi : TithiDict) : String :=
  "*üåô Tithi \\(Lunar Day\\):*\n" ++
  "```\n" ++
  "Name: " ++ pyTitle ((tithi.name).getD "N/A") ++ " (" ++
    getScalarD tithi.number ++ ")\n" ++
  "Paksha: " ++ pyTitle ((tithi.paksha).getD "N/A") ++ "\n" ++
  "Completes: " ++ format_completion_time tithi.completes_at ++ "\n" ++
  "Remaining: " ++ getScalarD tithi.left_precentage ++ "%\n" ++
  "```\n"

/-- The nakshatra verbatim block (source lines 144-151). -/
def nakshatraSection (nakshatra : NakshatraDict) : String :=
  "*‚≠ê Nakshatra \\(Lunar Mansion\\):*\n" ++
  "```\n" ++
  "Name: " ++ pyTitle ((nakshatra.name).getD "N/A") ++ " (" ++
    getScalarD nakshatra.number ++ ")\n" ++
  "Starts: " ++ format_completion_time nakshatra.starts_at ++ "\n" ++
  "Ends: " ++ format_completion_time nakshatra.ends_at ++ "\n" ++
  "Remaining: " ++ getScalarD nakshatra.left_percentage ++ "%\n" ++
  "```\n"

/-- The yoga & karana verbatim block (source lines 153-160). -/
def yogaKaranaSection (yoga1 karana1 : YogaKaranaDict) : String :=
  "*üßò Yoga & Karana:*\n" ++
  "```\n" ++
  "Yoga: " ++ pyTitle ((yoga1.name).getD "N/A") ++ " (" ++
    getScalarD yoga1.number ++ ")\n" ++
  "Yoga Completion: " ++ format_completion_time yoga1.completion ++ "\n" ++
  "Karana: " ++ pyTitle ((karana1.name).getD "N/A") ++ " (" ++
    getScalarD karana1.number ++ ")\n" ++
  "Karana Completion: " ++ format_completion_time karana1.completion ++ "\n" ++
  "```"

/-- `format_panchang_table` from the source. -/
def format_panchang_table (panchang_data : PanchangData)
    (dt_obj : PyDatetime) : String :=
  if errTruthy panchang_data.error then
    "‚ùå *Error:* " ++
      escape_markdown_v2 ((panchang_data.error).getD "")
  else
    headerSection panchang_data dt_obj ++
    tithiSection ((panchang_data.tithi).getD {}) ++
    nakshatraSection ((panchang_data.nakshatra).getD {}) ++
    yogaKaranaSection ((((panchang_data.yoga).getD {}).one).getD {})
      ((((panchang_data.karana).getD {}).one).getD {})

/-- The output's region before the first triple-backtick fence: the prose
(non-verbatim) header of the message. -/
def beforeFence : List Char → List Char
  | '`' :: '`' :: '`' :: _ => []
  | c :: cs => c :: beforeFence cs
  | [] => []

/-! ### `fetch_panchang_data` (src/jojo.py lines 56-91) -/

/-- What one HTTP attempt delivers to the handler code: a response with a
status code and (when the body decodes as JSON) a decoded body, a
`RequestException` that carries no response (DNS failure, connection
refused, timeout; the exception class name feeds the message), or any other
exception.  `response.raise_for_status()` raising `HTTPError` for a 4xx/5xx
status is modelled inside `fetch_panchang_data`, and a body that is not
valid JSON (`body := none`) lands in the source's `json.JSONDecodeError`
branch. -/
inductive HttpResult
  | response (status : Nat) (body : Option PanchangData)
  | requestExceptionNoResponse (excClassName : String)
  | otherException
deriving DecidableEq, Repr

/-- The fixed tail of the two `RequestException` messages. -/
def apiKeyHint : String :=
  ". Please confirm your ASTRO_API_KEY has access to the '/complete-panchang' endpoint."

/-- `fetch_panchang_data` from the source: always returns a dictionary;
every handled failure path returns a dictionary whose `error` key holds a
message string. -/
def fetch_panchang_data (r : HttpResult) : PanchangData :=
  match r with
  | .response status body =>
    if 400 ≤ status ∧ status < 600 then
      -- `raise_for_status` raises `HTTPError` (with `e.response` set), so
      -- the `RequestException` handler formats "HTTP Error {status}"
      { error := some ("API request failed: HTTP Error " ++ toString status
          ++ apiKeyHint) }
    else
      match body with
      | none =>
        { error := some "Failed to decode the Panchang data from the API response." }
      | some panchang_data =>
        match panchang_data.error with
        | some e => { error := some e }
        | none => panchang_data
  | .requestExceptionNoResponse excClassName =>
      { error := some ("API request failed: Connection Error: " ++ excClassName
          ++ apiKeyHint) }
  | .otherException =>
      { error := some "An unexpected error occurred during API fetch." }

/-! ### `build_api_payload` and `panchang_command` (src/jojo.py lines 41-54
and 181-219) -/

/-- Fixed location constant (a Python float literal, embedded as a
rational). -/
def LATITUDE : ℚ := 10.0079

/-- Fixed location constant. -/
def LONGITUDE : ℚ := 77.4735

/-- Fixed timezone offset constant sent to the API (hours). -/
def TIMEZONE : ℚ := 5.5

/-- The field set `build_api_payload` serializes. -/
structure ApiPayload where
  year : Nat
  month : Nat
  date : Nat
  hours : Nat
  minutes : Nat
  seconds : Nat
  latitude : ℚ
  longitude : ℚ
  timezone : ℚ
  observation_point : String
  ayanamsha : String
deriving DecidableEq, Repr

/-- `build_api_payload` from the source (the payload before
`json.dumps`). -/
def build_api_payload (dt_obj : PyDatetime) : ApiPayload :=
  { year := dt_obj.year, month := dt_obj.month, date := dt_obj.day,
    hours := dt_obj.hour, minutes := dt_obj.minute, seconds := dt_obj.second,
    latitude := LATITUDE, longitude := LONGITUDE, timezone := TIMEZONE,
    observation_point := "topocentric", ayanamsha := "lahiri" }

/-- `Asia/Kolkata` is a fixed UTC+5:30 offset: 19800 seconds. -/
def IST_OFFSET_SECONDS : Nat := 19800

/-- What the `/panchang` handler does before any reply is rendered: reply
that the date argument is missing, reply that it is invalid (echoing it),
or build the payload and invoke the fetcher with the combined instant. -/
inductive CommandOutcome
  | missingArgReply (text : String)
  | invalidDateReply (text : String)
  | fetchRequested (payload : ApiPayload) (input_dt : PyDatetime)
deriving DecidableEq, Repr

/-- The `DD-MM-YYYY` rendering of a date, zero-padded as the command
expects dates to be written. -/
def ddmmyyyyChars (d m y : Nat) : List Char :=
  pad2 d ++ '-' :: (pad2 m ++ '-' :: pad4 y)

/-- A well-formed `%Y-%m-%d %H:%M:%S` wire timestamp built from numeric
fields, zero-padded as the upstream emits them. -/
def wireChars (y m d h mi s : Nat) : List Char :=
  pad4 y ++ '-' :: (pad2 m ++ '-' :: pad2 d) ++ ' ' ::
    (pad2 h ++ ':' :: (pad2 mi ++ ':' :: pad2 s))

/-- `panchang_command` from the source, up to the fetch decision.  The
message-arrival instant `update.message.date` is aware UTC; only the
hour/minute/second of its `Asia/Kolkata` conversion are used, so it is
embedded as seconds since a UTC midnight (`arrivalUtcSeconds`, reduced
modulo one day). -/
def panchang_command (args : List String) (arrivalUtcSeconds : Nat) :
    CommandOutcome :=
  match args with
  | [] =>
    .missingArgReply
      "Please provide a date in the format DD-MM-YYYY. Example: /panchang 13-12-2025"
  | date_str :: _ =>
    match parseDDMMYYYY date_str with
    | none =>
      .invalidDateReply ("‚ùå Invalid date format: '" ++ date_str
        ++ "'. Please use DD-MM-YYYY (e.g., 13-12-2025).")
    | some (d, m, y) =>
      let istSecondsOfDay := (arrivalUtcSeconds + IST_OFFSET_SECONDS) % 86400
      let input_dt : PyDatetime :=
        ⟨y, m, d, istSecondsOfDay / 3600, istSecondsOfDay % 3600 / 60,
          istSecondsOfDay % 60⟩
      .fetchRequested (build_api_payload input_dt) input_dt

/-- A fixed sample instant (2025-12-13 21:14:07) used to evaluate the
formatter at concrete inputs. -/
def sampleDt : PyDatetime := ⟨2025, 12, 13, 21, 14, 7⟩

/-! ## Lemmas about the escape scan -/

theorem escapeList_append (a b : List Char) :
    escapeList (a ++ b) = escapeList a ++ escapeList b := by
  induction a with
  | nil => rfl
  | cons c cs ih =>
    simp only [List.cons_append, escapeList]
    by_cases h : isReservedChar c <;> simp [h, ih]

theorem escapeList_of_clean (l : List Char)
    (h : ∀ c ∈ l, isReservedChar c = false) : escapeList l = l := by
  induction l with
  | nil => rfl
  | cons c cs ih =>
    have hc := h c (by simp)
    simp only [escapeList, hc, Bool.false_eq_true, if_false]
    exact congrArg (c :: ·) (ih fun x hx => h x (by simp [hx]))

/-- Every reserved character occurring in the output of the escape scan is
immediately preceded by a backslash. -/
theorem escapeList_reserved_preceded (l : List Char) :
    ∀ pre c post, escapeList l = pre ++ c :: post →
      isReservedChar c = true → ∃ pre', pre = pre' ++ ['\\'] := by
  induction l with
  | nil =>
    intro pre c post he _
    rw [show escapeList [] = [] from rfl] at he
    simp at he
  | cons a as ih =>
    intro pre c post he hc
    by_cases ha : isReservedChar a
    · simp only [escapeList, ha, if_true] at he
      match pre with
      | [] =>
        simp only [List.nil_append, List.cons.injEq] at he
        obtain ⟨h1, -⟩ := he
        subst h1
        exact absurd hc (by decide)
      | [p0] =>
        simp only [List.cons_append, List.nil_append, List.cons.injEq] at he
        obtain ⟨h1, -, -⟩ := he
        subst h1
        exact ⟨[], rfl⟩
      | p0 :: p1 :: pre₂ =>
        simp only [List.cons_append, List.cons.injEq] at he
        obtain ⟨-, -, he₂⟩ := he
        obtain ⟨q, hq⟩ := ih pre₂ c post he₂ hc
        exact ⟨p0 :: p1 :: q, by simp [hq]⟩
    · simp only [escapeList, ha, Bool.false_eq_true, if_false] at he
      match pre with
      | [] =>
        simp only [List.nil_append, List.cons.injEq] at he
        obtain ⟨h1, -⟩ := he
        subst h1
        exact absurd hc ha
      | p0 :: pre₁ =>
        simp only [List.cons_append, List.cons.injEq] at he
        obtain ⟨-, he₂⟩ := he
        obtain ⟨q, hq⟩ := ih pre₁ c post he₂ hc
        exact ⟨p0 :: q, by simp [hq]⟩

/-- Dropping the inserted backslashes recovers the input: the scan inserts
exactly one backslash before each reserved character and passes every other
character through unchanged. -/
theorem unescapeList_escapeList (l : List Char) :
    unescapeList (escapeList l) = l := by
  induction l with
  | nil => rfl
  | cons c cs ih =>
    by_cases h : isReservedChar c
    · simp [escapeList, h, unescapeList, ih]
    · simp only [escapeList, h, Bool.false_eq_true, if_false]
      cases hes : escapeList cs with
      | nil =>
        rw [hes] at ih
        have : cs = [] := by simpa [unescapeList] using ih.symm
        simp [this, unescapeList]
      | cons d ds =>
        rw [hes] at ih
        have hcond : ¬ (c = '\\' ∧ isReservedChar d) := by
          rintro ⟨hb, hd⟩
          -- the head of `escapeList cs` is never a bare reserved character:
          -- every reserved character in the output has a backslash before it
          obtain ⟨q, hq⟩ :=
            escapeList_reserved_preceded cs [] d ds (by simp [hes]) hd
          simp at hq
        simp [unescapeList, hcond, ih]

/-- The escape scan adds exactly one character per reserved occurrence. -/
theorem escapeList_length (l : List Char) :
    (escapeList l).length = l.length + l.countP (fun c => isReservedChar c) := by
  induction l with
  | nil => rfl
  | cons c cs ih =>
    by_cases h : isReservedChar c <;>
      simp [escapeList, h, List.countP_cons, ih] <;> omega

/-! ## Lemmas about digit strings and splitting -/

theorem splitCh_ne_nil (sep : Char) (l : List Char) : splitCh sep l ≠ [] := by
  cases l with
  | nil => simp [splitCh]
  | cons c cs =>
    simp only [splitCh]
    cases splitCh sep cs with
    | nil => simp
    | cons r rs => by_cases h : c = sep <;> simp [h]

theorem splitCh_of_not_mem (sep : Char) (l : List Char) (h : sep ∉ l) :
    splitCh sep l = [l] := by
  induction l with
  | nil => rfl
  | cons c cs ih =>
    have hc : ¬ c = sep := fun he => h (by simp [he])
    have := ih fun hm => h (by simp [hm])
    simp [splitCh, this, hc]

theorem splitCh_append (sep : Char) (a b : List Char) (h : sep ∉ a) :
    splitCh sep (a ++ sep :: b) = a :: splitCh sep b := by
  induction a with
  | nil =>
    simp only [List.nil_append, splitCh]
    cases hb : splitCh sep b with
    | nil => exact absurd hb (splitCh_ne_nil sep b)
    | cons r rs => simp
  | cons c cs ih =>
    have hc : ¬ c = sep := fun he => h (by simp [he])
    have hrec := ih fun hm => h (by simp [hm])
    simp only [List.cons_append, splitCh, List.append_eq]
    rw [hrec]
    simp [hc]

theorem digitVal_digitChar (n : Nat) : digitVal (digitChar n) = n % 10 := by
  have h : n % 10 < 10 := Nat.mod_lt _ (by norm_num)
  rcases (by omega :
      n % 10 = 0 ∨ n % 10 = 1 ∨ n % 10 = 2 ∨ n % 10 = 3 ∨ n % 10 = 4 ∨
      n % 10 = 5 ∨ n % 10 = 6 ∨ n % 10 = 7 ∨ n % 10 = 8 ∨ n % 10 = 9) with
    h0 | h0 | h0 | h0 | h0 | h0 | h0 | h0 | h0 | h0 <;>
  · simp [digitChar, digitVal, h0]

theorem isDigit_digitChar (n : Nat) : (digitChar n).isDigit = true := by
  have h : n % 10 < 10 := Nat.mod_lt _ (by norm_num)
  rcases (by omega :
      n % 10 = 0 ∨ n % 10 = 1 ∨ n % 10 = 2 ∨ n % 10 = 3 ∨ n % 10 = 4 ∨
      n % 10 = 5 ∨ n % 10 = 6 ∨ n % 10 = 7 ∨ n % 10 = 8 ∨ n % 10 = 9) with
    h0 | h0 | h0 | h0 | h0 | h0 | h0 | h0 | h0 | h0 <;>
  · simp [digitChar, h0]

theorem not_mem_of_all_digits (sep : Char) (hsep : sep.isDigit = false)
    (l : List Char) (h : l.all Char.isDigit = true) : sep ∉ l := by
  intro hm
  rw [List.all_eq_true] at h
  have := h sep hm
  rw [hsep] at this
  exact absurd this (by simp)

theorem pad2_all_digits (n : Nat) : (pad2 n).all Char.isDigit = true := by
  simp [pad2, isDigit_digitChar]

theorem pad4_all_digits (n : Nat) : (pad4 n).all Char.isDigit = true := by
  simp [pad4, isDigit_digitChar]

theorem parseField2_pad2 (n : Nat) (h : n ≤ 99) :
    parseField2 (pad2 n) = some n := by
  have hd : digitsToNat (pad2 n) = n := by
    simp only [digitsToNat, pad2, List.foldl, digitVal_digitChar]
    omega
  have hne : pad2 n ≠ [] := by simp [pad2]
  have hlen : (pad2 n).length ≤ 2 := by simp [pad2]
  unfold parseField2
  rw [if_pos ⟨hne, hlen, pad2_all_digits n⟩, hd]

theorem parseYearField_pad4 (y : Nat) (h : y ≤ 9999) :
    parseYearField (pad4 y) = some y := by
  have hd : digitsToNat (pad4 y) = y := by
    simp only [digitsToNat, pad4, List.foldl, digitVal_digitChar]
    omega
  have hlen : (pad4 y).length = 4 := by simp [pad4]
  unfold parseYearField
  rw [if_pos ⟨hlen, pad4_all_digits y⟩, hd]

theorem not_mem_pad2 (c : Char) (hc : c.isDigit = false) (n : Nat) :
    c ∉ pad2 n :=
  not_mem_of_all_digits c hc _ (pad2_all_digits n)

theorem not_mem_pad4 (c : Char) (hc : c.isDigit = false) (n : Nat) :
    c ∉ pad4 n :=
  not_mem_of_all_digits c hc _ (pad4_all_digits n)

theorem daysInMonth_le_31 (y m : Nat) : daysInMonth y m ≤ 31 := by
  unfold daysInMonth
  split
  · split <;> omega
  · split <;> omega

/-- Parsing a well-formed wire timestamp recovers its fields. -/
theorem parseWire_wireChars (y m d h mi s : Nat) (hy1 : 1 ≤ y)
    (hy2 : y ≤ 9999) (hm1 : 1 ≤ m) (hm2 : m ≤ 12) (hd1 : 1 ≤ d)
    (hd2 : d ≤ daysInMonth y m) (hh : h ≤ 23) (hmi : mi ≤ 59) (hs : s ≤ 59) :
    parseWire ⟨wireChars y m d h mi s⟩ = some ⟨y, m, d, h, mi, s⟩ := by
  have hspDP : (' ' : Char) ∉ pad4 y ++ '-' :: (pad2 m ++ '-' :: pad2 d) := by
    intro hm'
    simp only [List.mem_append, List.mem_cons] at hm'
    rcases hm' with h' | h' | h' | h' | h'
    · exact not_mem_pad4 ' ' (by decide) y h'
    · exact absurd h' (by decide)
    · exact not_mem_pad2 ' ' (by decide) m h'
    · exact absurd h' (by decide)
    · exact not_mem_pad2 ' ' (by decide) d h'
  have hspTP : (' ' : Char) ∉ pad2 h ++ ':' :: (pad2 mi ++ ':' :: pad2 s) := by
    intro hm'
    simp only [List.mem_append, List.mem_cons] at hm'
    rcases hm' with h' | h' | h' | h' | h'
    · exact not_mem_pad2 ' ' (by decide) h h'
    · exact absurd h' (by decide)
    · exact not_mem_pad2 ' ' (by decide) mi h'
    · exact absurd h' (by decide)
    · exact not_mem_pad2 ' ' (by decide) s h'
  have hw : wireChars y m d h mi s =
      (pad4 y ++ '-' :: (pad2 m ++ '-' :: pad2 d)) ++ ' ' ::
        (pad2 h ++ ':' :: (pad2 mi ++ ':' :: pad2 s)) := by
    simp [wireChars, List.append_assoc]
  have hsplit1 : splitCh ' ' (wireChars y m d h mi s) =
      [pad4 y ++ '-' :: (pad2 m ++ '-' :: pad2 d),
        pad2 h ++ ':' :: (pad2 mi ++ ':' :: pad2 s)] := by
    rw [hw, splitCh_append _ _ _ hspDP, splitCh_of_not_mem _ _ hspTP]
  have hsplit2 : splitCh '-' (pad4 y ++ '-' :: (pad2 m ++ '-' :: pad2 d)) =
      [pad4 y, pad2 m, pad2 d] := by
    rw [splitCh_append _ _ _ (not_mem_pad4 '-' (by decide) y),
      splitCh_append _ _ _ (not_mem_pad2 '-' (by decide) m),
      splitCh_of_not_mem _ _ (not_mem_pad2 '-' (by decide) d)]
  have hsplit3 : splitCh ':' (pad2 h ++ ':' :: (pad2 mi ++ ':' :: pad2 s)) =
      [pad2 h, pad2 mi, pad2 s] := by
    rw [splitCh_append _ _ _ (not_mem_pad2 ':' (by decide) h),
      splitCh_append _ _ _ (not_mem_pad2 ':' (by decide) mi),
      splitCh_of_not_mem _ _ (not_mem_pad2 ':' (by decide) s)]
  have hd99 : d ≤ 99 := le_trans hd2 (le_trans (daysInMonth_le_31 y m) (by omega))
  unfold parseWire
  simp [hsplit1, hsplit2, hsplit3, parseYearField_pad4 y hy2,
    parseField2_pad2 m (by omega), parseField2_pad2 d hd99,
    parseField2_pad2 h (by omega), parseField2_pad2 mi (by omega),
    parseField2_pad2 s (by omega), hy1, hm1, hm2, hd1, hd2, hh, hmi, hs]

/-- Parsing a well-formed `DD-MM-YYYY` date string recovers its fields. -/
theorem parseDDMMYYYY_ddmmyyyyChars (d m y : Nat) (hy1 : 1 ≤ y)
    (hy2 : y ≤ 9999) (hm1 : 1 ≤ m) (hm2 : m ≤ 12) (hd1 : 1 ≤ d)
    (hd2 : d ≤ daysInMonth y m) :
    parseDDMMYYYY ⟨ddmmyyyyChars d m y⟩ = some (d, m, y) := by
  have hsplit : splitCh '-' (ddmmyyyyChars d m y) =
      [pad2 d, pad2 m, pad4 y] := by
    unfold ddmmyyyyChars
    rw [splitCh_append _ _ _ (not_mem_pad2 '-' (by decide) d),
      splitCh_append _ _ _ (not_mem_pad2 '-' (by decide) m),
      splitCh_of_not_mem _ _ (not_mem_pad4 '-' (by decide) y)]
  have hd99 : d ≤ 99 := le_trans hd2 (le_trans (daysInMonth_le_31 y m) (by omega))
  unfold parseDDMMYYYY
  simp [hsplit, parseYearField_pad4 y hy2, parseField2_pad2 m (by omega),
    parseField2_pad2 d hd99, hy1, hm1, hm2, hd1, hd2]


/-! ## String and infix helpers -/

theorem data_append (a b : String) : (a ++ b).data = a.data ++ b.data := rfl

theorem infix_of_infix_right {b y : List Char} (a : List Char)
    (h : b <:+: y) : b <:+: a ++ y := by
  obtain ⟨u, t, rfl⟩ := h
  exact ⟨a ++ u, t, by simp [List.append_assoc]⟩

theorem infix_self_append (b t : List Char) : b <:+: b ++ t :=
  ⟨[], t, rfl⟩

theorem infix_head3 (x y z r : List Char) :
    x ++ (y ++ z) <:+: x ++ (y ++ (z ++ r)) :=
  ⟨[], r, by simp [List.append_assoc]⟩

theorem append_ne_empty_left (a b : String) (ha : a.data ≠ []) :
    a ++ b ≠ "" := by
  intro h
  have h2 := congrArg String.data h
  rw [data_append] at h2
  exact ha (List.append_eq_nil.mp h2).1

theorem append3_ne_empty (a b c : String) (ha : a.data ≠ []) :
    a ++ b ++ c ≠ "" := by
  intro h
  have h2 := congrArg String.data h
  rw [data_append, data_append] at h2
  exact ha (List.append_eq_nil.mp (List.append_eq_nil.mp h2).1).1

/-- A success-path formatted message contains the tithi block. -/
theorem tithiSection_infix_format (d : PanchangData) (dt : PyDatetime)
    (h : errTruthy d.error = false) :
    (tithiSection ((d.tithi).getD {})).data <:+:
      (format_panchang_table d dt).data := by
  simp only [format_panchang_table, h, Bool.false_eq_true, if_false]
  simp only [data_append, List.append_assoc]
  exact infix_of_infix_right _ (infix_self_append _ _)

/-- A success-path formatted message contains the nakshatra block. -/
theorem nakshatraSection_infix_format (d : PanchangData) (dt : PyDatetime)
    (h : errTruthy d.error = false) :
    (nakshatraSection ((d.nakshatra).getD {})).data <:+:
      (format_panchang_table d dt).data := by
  simp only [format_panchang_table, h, Bool.false_eq_true, if_false]
  simp only [data_append, List.append_assoc]
  exact infix_of_infix_right _ (infix_of_infix_right _ (infix_self_append _ _))

/-- A success-path formatted message contains the yoga & karana block. -/
theorem yogaKaranaSection_infix_format (d : PanchangData) (dt : PyDatetime)
    (h : errTruthy d.error = false) :
    (yogaKaranaSection ((((d.yoga).getD {}).one).getD {})
        ((((d.karana).getD {}).one).getD {})).data <:+:
      (format_panchang_table d dt).data := by
  simp only [format_panchang_table, h, Bool.false_eq_true, if_false]
  simp only [data_append, List.append_assoc]
  refine infix_of_infix_right _ (infix_of_infix_right _
    (infix_of_infix_right _ ⟨[], [], by simp⟩))


/-! ## Claim theorems -/

/-- Claim C6: for any input string, the escaping function returns a string
in which each occurrence of each reserved character is preceded by exactly
one backslash and all non-reserved characters pass through unchanged: every
reserved character of the output is immediately preceded by a backslash,
dropping the single inserted backslash in front of each reserved character
recovers the input exactly, and the length grows by exactly one per
reserved occurrence. -/
theorem c6_escape_each_reserved_exactly_once (s : String) :
    (∀ pre c post, (escape_markdown_v2 s).data = pre ++ c :: post →
        isReservedChar c = true → ∃ pre', pre = pre' ++ ['\\']) ∧
    unescapeList (escape_markdown_v2 s).data = s.data ∧
    (escape_markdown_v2 s).data.length
      = s.data.length + s.data.countP (fun c => isReservedChar c) := by
  refine ⟨?_, ?_, ?_⟩
  · exact fun pre c post he hc =>
      escapeList_reserved_preceded s.data pre c post he hc
  · exact unescapeList_escapeList s.data
  · exact escapeList_length s.data

/-- Claim C10: `fetch_panchang_data` always returns a dictionary; on every
handled failure path (request exception with a response, i.e. a 4xx/5xx
status, request exception without a response, JSON decode failure, any
other exception) the dictionary maps `"error"` to a non-empty message
string, which the formatter's single truthiness check of the `"error"` key
classifies as the error path; a successful decode with no in-band error is
returned as-is and classified as success. -/
theorem c10_fetch_error_key_classifies (r : HttpResult) :
    (∀ status body, r = .response status body → 400 ≤ status →
      status < 600 →
      ∃ msg, fetch_panchang_data r = { error := some msg } ∧ msg ≠ "" ∧
        errTruthy (fetch_panchang_data r).error = true) ∧
    (∀ status, r = .response status none → ¬ (400 ≤ status ∧ status < 600) →
      fetch_panchang_data r =
        { error :=
            some "Failed to decode the Panchang data from the API response." } ∧
        errTruthy (fetch_panchang_data r).error = true) ∧
    (∀ excName, r = .requestExceptionNoResponse excName →
      ∃ msg, fetch_panchang_data r = { error := some msg } ∧ msg ≠ "" ∧
        errTruthy (fetch_panchang_data r).error = true) ∧
    (r = .otherException →
      fetch_panchang_data r =
        { error := some "An unexpected error occurred during API fetch." } ∧
        errTruthy (fetch_panchang_data r).error = true) ∧
    (∀ status body, r = .response status (some body) →
      ¬ (400 ≤ status ∧ status < 600) → body.error = none →
      fetch_panchang_data r = body ∧
        errTruthy (fetch_panchang_data r).error = false) := by
  refine ⟨?_, ?_, ?_, ?_, ?_⟩
  · rintro status body rfl h4 h6
    refine ⟨"API request failed: HTTP Error " ++ toString status ++ apiKeyHint,
      ?_, ?_, ?_⟩
    · simp [fetch_panchang_data, h4, h6]
    · exact append3_ne_empty _ _ _ (by decide)
    · have hne : ("API request failed: HTTP Error " ++ toString status
          ++ apiKeyHint) ≠ "" := append3_ne_empty _ _ _ (by decide)
      simp [fetch_panchang_data, h4, h6, errTruthy, hne]
  · rintro status rfl hnot
    constructor
    · simp [fetch_panchang_data, hnot]
    · simp [fetch_panchang_data, hnot, errTruthy]
  · rintro excName rfl
    refine ⟨"API request failed: Connection Error: " ++ excName ++ apiKeyHint,
      rfl, append3_ne_empty _ _ _ (by decide), ?_⟩
    have hne : ("API request failed: Connection Error: " ++ excName
        ++ apiKeyHint) ≠ "" := append3_ne_empty _ _ _ (by decide)
    simp [fetch_panchang_data, errTruthy, hne]
  · rintro rfl
    exact ⟨rfl, by simp [fetch_panchang_data, errTruthy]⟩
  · rintro status body rfl hnot herr
    constructor
    · simp [fetch_panchang_data, hnot, herr]
    · simp [fetch_panchang_data, hnot, herr, errTruthy]

/-- Witness for C10: the failure branches at concrete inputs are classified
as errors and a clean success body passes through. -/
theorem c10_fetch_error_key_classifies_witness :
    errTruthy (fetch_panchang_data (.response 500 none)).error = true ∧
    errTruthy (fetch_panchang_data (.response 200 none)).error = true ∧
    errTruthy (fetch_panchang_data
      (.requestExceptionNoResponse "ConnectTimeout")).error = true ∧
    errTruthy (fetch_panchang_data .otherException).error = true ∧
    fetch_panchang_data (.response 200 (some { sun_rise := some "06:32" })) =
      { sun_rise := some "06:32" } := by
  refine ⟨?_, ?_, ?_, ?_, ?_⟩
  · obtain ⟨msg, -, -, h⟩ :=
      (c10_fetch_error_key_classifies (.response 500 none)).1 500 none rfl
        (by norm_num) (by norm_num)
    exact h
  · exact ((c10_fetch_error_key_classifies (.response 200 none)).2.1 200 rfl
      (by norm_num)).2
  · obtain ⟨msg, -, -, h⟩ :=
      (c10_fetch_error_key_classifies
        (.requestExceptionNoResponse "ConnectTimeout")).2.2.1
        "ConnectTimeout" rfl
    exact h
  · exact ((c10_fetch_error_key_classifies .otherException).2.2.2.1 rfl).2
  · exact ((c10_fetch_error_key_classifies _).2.2.2.2 200
      { sun_rise := some "06:32" } rfl (by norm_num) rfl).1


/-- Claim C7: for every date argument string that the strict `%d-%m-%Y`
parse (including the calendar validity check) rejects, the command handler
replies with the invalid-date-format message echoing the offending input
and never reaches the fetch step. -/
theorem c7_invalid_date_never_fetches (date_str : String) (arrival : Nat)
    (h : parseDDMMYYYY date_str = none) :
    panchang_command [date_str] arrival =
      .invalidDateReply ("‚ùå Invalid date format: '" ++ date_str
        ++ "'. Please use DD-MM-YYYY (e.g., 13-12-2025).") ∧
    ∀ payload input_dt,
      panchang_command [date_str] arrival ≠
        .fetchRequested payload input_dt := by
  constructor
  · simp [panchang_command, h]
  · intro payload input_dt heq
    simp [panchang_command, h] at heq

/-- Witness for C7 at the calendrically invalid input `31-02-2025`. -/
theorem c7_invalid_date_never_fetches_witness :
    parseDDMMYYYY "31-02-2025" = none ∧
    ∀ payload input_dt,
      panchang_command ["31-02-2025"] 0 ≠
        .fetchRequested payload input_dt :=
  ⟨by decide,
    (c7_invalid_date_never_fetches "31-02-2025" 0 (by decide)).2⟩

/-- Claim C8: for every valid `DD-MM-YYYY` input and every arrival
timestamp, the built instant's year/month/day are the parsed input date's
fields and its hour/minute/second are the arrival timestamp converted to
the fixed UTC+5:30 timezone; the payload is built from exactly that
instant. -/
theorem c8_instant_combines_date_and_ist_clock (d m y arrival : Nat)
    (hy1 : 1 ≤ y) (hy2 : y ≤ 9999) (hm1 : 1 ≤ m) (hm2 : m ≤ 12)
    (hd1 : 1 ≤ d) (hd2 : d ≤ daysInMonth y m) :
    panchang_command [⟨ddmmyyyyChars d m y⟩] arrival =
      .fetchRequested
        (build_api_payload
          ⟨y, m, d, (arrival + IST_OFFSET_SECONDS) % 86400 / 3600,
            (arrival + IST_OFFSET_SECONDS) % 86400 % 3600 / 60,
            (arrival + IST_OFFSET_SECONDS) % 86400 % 60⟩)
        ⟨y, m, d, (arrival + IST_OFFSET_SECONDS) % 86400 / 3600,
          (arrival + IST_OFFSET_SECONDS) % 86400 % 3600 / 60,
          (arrival + IST_OFFSET_SECONDS) % 86400 % 60⟩ := by
  simp [panchang_command,
    parseDDMMYYYY_ddmmyyyyChars d m y hy1 hy2 hm1 hm2 hd1 hd2]

/-- Witness for C8: input `13-12-2025` arriving at UTC midnight builds the
instant 2025-12-13 05:30:00 (IST clock). -/
theorem c8_instant_combines_date_and_ist_clock_witness :
    panchang_command ["13-12-2025"] 0 =
      .fetchRequested (build_api_payload ⟨2025, 12, 13, 5, 30, 0⟩)
        ⟨2025, 12, 13, 5, 30, 0⟩ := by
  have h := c8_instant_combines_date_and_ist_clock 13 12 2025 0
    (by norm_num) (by norm_num) (by norm_num) (by norm_num) (by norm_num)
    (by decide)
  exact h

/-- Claim C9: the tithi remaining percentage is read from the key spelled
`left_precentage` while the nakshatra one is read from `left_percentage`;
a tithi object carrying only the conventional spelling `left_percentage`
renders `Remaining: N/A%`. -/
theorem c9_remaining_percentage_key_spellings :
    (∀ t : TithiDict,
      ("Remaining: " ++ getScalarD t.left_precentage ++ "%\n").data <:+:
        (tithiSection t).data) ∧
    (∀ n : NakshatraDict,
      ("Remaining: " ++ getScalarD n.left_percentage ++ "%\n").data <:+:
        (nakshatraSection n).data) ∧
    (∀ (v : PyScalar) (dt : PyDatetime),
      ("Remaining: N/A%\n").data <:+:
        (tithiSection { left_percentage := some v }).data ∧
      ("Remaining: N/A%\n").data <:+:
        (format_panchang_table
          { tithi := some { left_percentage := some v } } dt).data) := by
  refine ⟨?_, ?_, ?_⟩
  · intro t
    simp only [tithiSection, data_append, List.append_assoc]
    repeat
      first
        | exact infix_head3 _ _ _ _
        | apply infix_of_infix_right
  · intro n
    simp only [nakshatraSection, data_append, List.append_assoc]
    repeat
      first
        | exact infix_head3 _ _ _ _
        | apply infix_of_infix_right
  · intro v dt
    have hsec : ("Remaining: N/A%\n").data <:+:
        (tithiSection { left_percentage := some v }).data := by
      have h1 : ("Remaining: N/A%\n").data <:+:
          ("Remaining: " ++ getScalarD
              (({ left_percentage := some v } : TithiDict)).left_precentage ++
            "%\n").data := by
        have hna : getScalarD
            (({ left_percentage := some v } : TithiDict)).left_precentage =
            "N/A" := rfl
        rw [hna]
        decide
      have h2 : ("Remaining: " ++ getScalarD
            (({ left_percentage := some v } : TithiDict)).left_precentage ++
          "%\n").data <:+:
          (tithiSection { left_percentage := some v }).data := by
        simp only [tithiSection, data_append, List.append_assoc]
        repeat
          first
            | exact infix_head3 _ _ _ _
            | apply infix_of_infix_right
      exact h1.trans h2
    refine ⟨hsec, ?_⟩
    have hfmt := tithiSection_infix_format
      { tithi := some { left_percentage := some v } } dt rfl
    exact hsec.trans hfmt


/-- Counterexample to Claim C3 as stated: with `paksha = "krishna"` the
rendered label is the title-cased "Paksha: Krishna", not
"Waning Moon (Krishna)", and with any other paksha (e.g. "shukla") the
label "Waxing Moon (Shukla)" is likewise never produced. -/
theorem c3_counterexample_no_moon_labels :
    ("Paksha: Krishna\n").data <:+:
      (format_panchang_table
        { tithi := some { paksha := some "krishna" } } sampleDt).data ∧
    ¬ (("Waning Moon (Krishna)").data <:+:
      (format_panchang_table
        { tithi := some { paksha := some "krishna" } } sampleDt).data) ∧
    ¬ (("Waxing Moon (Shukla)").data <:+:
      (format_panchang_table
        { tithi := some { paksha := some "shukla" } } sampleDt).data) := by
  refine ⟨by decide, by decide, by decide⟩

/-- Claim C3 amended: the paksha value is rendered by Python `str.title()`
of the raw upstream string ("krishna" → "Krishna", "shukla" → "Shukla",
absent → "N/A"); no lunar-phase label is attached. -/
theorem c3_amended_paksha_title_cased :
    (∀ t : TithiDict,
      ("Paksha: " ++ pyTitle ((t.paksha).getD "N/A") ++ "\n").data <:+:
        (tithiSection t).data) ∧
    pyTitle "krishna" = "Krishna" ∧
    pyTitle "shukla" = "Shukla" ∧
    (∀ (paksha : String) (dt : PyDatetime),
      ("Paksha: " ++ pyTitle paksha ++ "\n").data <:+:
        (format_panchang_table
          { tithi := some { paksha := some paksha } } dt).data) := by
  have hsec : ∀ t : TithiDict,
      ("Paksha: " ++ pyTitle ((t.paksha).getD "N/A") ++ "\n").data <:+:
        (tithiSection t).data := by
    intro t
    simp only [tithiSection, data_append, List.append_assoc]
    repeat
      first
        | exact infix_head3 _ _ _ _
        | apply infix_of_infix_right
  refine ⟨hsec, by decide, by decide, ?_⟩
  intro paksha dt
  have h1 := hsec { paksha := some paksha }
  have h2 := tithiSection_infix_format
    { tithi := some { paksha := some paksha } } dt rfl
  exact h1.trans h2

/-- Counterexample to Claim C2 as stated: a payload whose only content is a
top-level `output` field holding a (double-wrapped) JSON string is not
decoded at all — the tithi name "amavasya" it carries never reaches the
message, and the tithi block renders as entirely absent ("N/A"), not as the
only populated category. -/
theorem c2_counterexample_output_not_unwrapped :
    ¬ (("amavasya").data <:+:
      (format_panchang_table
        { output :=
            some "\"\x7b\\\"name\\\": \\\"amavasya\\\"\x7d\"" }
        sampleDt).data) ∧
    ¬ (("Amavasya").data <:+:
      (format_panchang_table
        { output :=
            some "\"\x7b\\\"name\\\": \\\"amavasya\\\"\x7d\"" }
        sampleDt).data) ∧
    ("Name: N/A (N/A)\n").data <:+:
      (format_panchang_table
        { output :=
            some "\"\x7b\\\"name\\\": \\\"amavasya\\\"\x7d\"" }
        sampleDt).data := by
  refine ⟨by decide, by decide, by decide⟩

/-- Claim C2 amended: this version of the pipeline performs no unwrapping
of a top-level `output` string: the field is ignored entirely (the
formatted message equals that of the empty record) and every almanac
category, the tithi included, renders as "N/A". -/
theorem c2_amended_output_ignored :
    (∀ (s : String) (dt : PyDatetime),
      format_panchang_table { output := some s } dt =
        format_panchang_table {} dt) ∧
    (∀ (s : String) (dt : PyDatetime),
      ("Name: N/A (N/A)\n").data <:+:
        (format_panchang_table { output := some s } dt).data ∧
      ("Remaining: N/A%\n").data <:+:
        (format_panchang_table { output := some s } dt).data) := by
  constructor
  · intro s dt
    rfl
  · intro s dt
    have hname : ("Name: N/A (N/A)\n").data <:+:
        (tithiSection {}).data := by decide
    have hrem : ("Remaining: N/A%\n").data <:+:
        (tithiSection {}).data := by decide
    have hfmt := tithiSection_infix_format { output := some s } dt rfl
    exact ⟨hname.trans hfmt, hrem.trans hfmt⟩


/-- Counterexample to Claim C4 as stated: the yoga completion time is
rendered through the same helper as tithi/nakshatra, so it also carries the
abbreviated month/day ("09:14:07 PM, Dec 13"), contrary to the claim that
yoga/karana completion times omit it. -/
theorem c4_counterexample_yoga_has_month_day :
    format_completion_time (some "2025-12-13 21:14:07") =
      "09:14:07 PM, Dec 13" ∧
    ("Yoga Completion: 09:14:07 PM, Dec 13\n").data <:+:
      (format_panchang_table
        { yoga :=
            some { one := some { completion := some "2025-12-13 21:14:07" } } }
        sampleDt).data ∧
    ¬ (("Yoga Completion: 09:14:07 PM\n").data <:+:
      (format_panchang_table
        { yoga :=
            some { one := some { completion := some "2025-12-13 21:14:07" } } }
        sampleDt).data) := by
  refine ⟨by decide, by decide, by decide⟩

/-- Claim C4 amended: every wire timestamp is parsed with the fixed format
`%Y-%m-%d %H:%M:%S`; a null/absent value or a parse failure renders "N/A";
success renders a 12-hour clock time with seconds, an AM/PM marker, and an
abbreviated month/day — for all four categories alike, the yoga and karana
completion lines included. -/
theorem c4_amended_completion_time_rendering :
    format_completion_time none = "N/A" ∧
    (∀ ts : String, parseWire ts = none →
      format_completion_time (some ts) = "N/A") ∧
    (∀ y m d h mi s : Nat, 1 ≤ y → y ≤ 9999 → 1 ≤ m → m ≤ 12 → 1 ≤ d →
      d ≤ daysInMonth y m → h ≤ 23 → mi ≤ 59 → s ≤ 59 →
      format_completion_time (some ⟨wireChars y m d h mi s⟩) =
        ⟨pad2 (hour12 h)⟩ ++ ":" ++ ⟨pad2 mi⟩ ++ ":" ++ ⟨pad2 s⟩ ++ " " ++
          ampm h ++ ", " ++ monthAbbrev m ++ " " ++ ⟨pad2 d⟩) ∧
    (∀ yoga1 karana1 : YogaKaranaDict,
      ("Yoga Completion: " ++ format_completion_time yoga1.completion ++
          "\n").data <:+: (yogaKaranaSection yoga1 karana1).data ∧
      ("Karana Completion: " ++ format_completion_time karana1.completion ++
          "\n").data <:+: (yogaKaranaSection yoga1 karana1).data) := by
  refine ⟨rfl, ?_, ?_, ?_⟩
  · intro ts h
    by_cases he : ts = ""
    · simp [format_completion_time, he]
    · simp [format_completion_time, he, h]
  · intro y m d h mi s hy1 hy2 hm1 hm2 hd1 hd2 hh hmi hs
    have hne : (⟨wireChars y m d h mi s⟩ : String) ≠ "" := by
      intro hemp
      have h2 := congrArg String.data hemp
      simp [wireChars, pad4] at h2
    simp [format_completion_time, hne,
      parseWire_wireChars y m d h mi s hy1 hy2 hm1 hm2 hd1 hd2 hh hmi hs]
  · intro yoga1 karana1
    constructor
    · simp only [yogaKaranaSection, data_append, List.append_assoc]
      repeat
        first
          | exact infix_head3 _ _ _ _
          | apply infix_of_infix_right
    · simp only [yogaKaranaSection, data_append, List.append_assoc]
      repeat
        first
          | exact infix_head3 _ _ _ _
          | apply infix_of_infix_right

/-- Witness for C4 (amended): a concrete wire timestamp renders with the
month/day suffix, and a malformed one renders "N/A". -/
theorem c4_amended_completion_time_rendering_witness :
    format_completion_time (some ⟨wireChars 2025 12 13 21 14 7⟩) =
      "09:14:07 PM, Dec 13" ∧
    format_completion_time (some "not a timestamp") = "N/A" := by
  constructor
  · have h := c4_amended_completion_time_rendering.2.2.1 2025 12 13 21 14 7
      (by norm_num) (by norm_num) (by norm_num) (by norm_num) (by norm_num)
      (by decide) (by norm_num) (by norm_num) (by norm_num)
    rw [h]
    decide
  · exact c4_amended_completion_time_rendering.2.1 "not a timestamp"
      (by decide)


/-- Counterexample to Claim C5 as stated: `raise_for_status` only raises
for 4xx/5xx, so a non-2xx status outside that range (HTTP 304, whose body
is typically empty and so fails JSON decoding) produces the generic decode
error message, which does not contain the status code "304". -/
theorem c5_counterexample_304_not_reported :
    (304 < 200 ∨ 300 ≤ 304) ∧
    fetch_panchang_data (.response 304 none) =
      { error :=
          some "Failed to decode the Panchang data from the API response." } ∧
    ¬ (("304").data <:+:
      (((fetch_panchang_data (.response 304 none)).error).getD "").data) := by
  refine ⟨by norm_num, by decide, by decide⟩

/-- Claim C5 amended: when the upstream HTTP call returns a 4xx or 5xx
status (the range `raise_for_status` raises for), the pipeline produces an
error dictionary — not an uncaught exception — whose message contains the
decimal status code; in particular an HTTP 403 response yields a formatted
error message containing "403" and no triple-backtick verbatim blocks. -/
theorem c5_amended_http_4xx_5xx_status_in_message (status : Nat)
    (body : Option PanchangData) (dt : PyDatetime) (h4 : 400 ≤ status)
    (h6 : status < 600) :
    (∃ msg, fetch_panchang_data (.response status body) =
        { error := some msg } ∧ (toString status).data <:+: msg.data) ∧
    (("403").data <:+:
        (format_panchang_table
          (fetch_panchang_data (.response 403 body)) dt).data ∧
      ¬ (("```").data <:+:
        (format_panchang_table
          (fetch_panchang_data (.response 403 body)) dt).data)) := by
  constructor
  · refine ⟨"API request failed: HTTP Error " ++ toString status ++ apiKeyHint,
      by simp [fetch_panchang_data, h4, h6], ?_⟩
    simp only [data_append, List.append_assoc]
    exact infix_of_infix_right _ (infix_self_append _ _)
  · have hfetch : fetch_panchang_data (.response 403 body) =
        { error := some ("API request failed: HTTP Error " ++
            toString (403 : Nat) ++ apiKeyHint) } := by
      simp [fetch_panchang_data]
    have hfmt : format_panchang_table
        (fetch_panchang_data (.response 403 body)) dt =
        format_panchang_table
          { error := some ("API request failed: HTTP Error " ++
              toString (403 : Nat) ++ apiKeyHint) } sampleDt := by
      rw [hfetch]
      have htr : errTruthy (some ("API request failed: HTTP Error " ++
          toString (403 : Nat) ++ apiKeyHint)) = true := by decide
      simp [format_panchang_table, htr]
    rw [hfmt]
    exact ⟨by decide, by decide⟩

/-- Witness for C5 (amended) at an HTTP 404 and the HTTP 403 end-to-end
case. -/
theorem c5_amended_http_4xx_5xx_status_in_message_witness :
    (∃ msg, fetch_panchang_data (.response 404 none) =
        { error := some msg } ∧ (toString (404 : Nat)).data <:+: msg.data) ∧
    ("403").data <:+:
      (format_panchang_table
        (fetch_panchang_data (.response 403 none)) sampleDt).data := by
  have h := c5_amended_http_4xx_5xx_status_in_message 404 none sampleDt
    (by norm_num) (by norm_num)
  exact ⟨h.1, h.2.1⟩

/-- Claim C1 (code bug): the upstream-supplied `sun_rise`/`sun_set` display
strings are interpolated into the prose (non-verbatim) region without
passing through `escape_markdown_v2` — with `sun_rise = "06.32"` the prose
header contains the raw "Sunrise: 06.32" whose reserved '.' is unescaped,
while the escaped form "06\.32" appears nowhere in the message (the query
date, query time and error strings are escaped, but these two are not). -/
theorem c1_sunrise_sunset_unescaped_in_prose :
    ("Sunrise: 06.32 \\|").data <:+:
      beforeFence ((format_panchang_table
        { sun_rise := some "06.32", sun_set := some "17:48" }
        sampleDt).data) ∧
    ¬ ((escape_markdown_v2 "06.32").data <:+:
      (format_panchang_table
        { sun_rise := some "06.32", sun_set := some "17:48" }
        sampleDt).data) ∧
    escape_markdown_v2 "06.32" = "06\\.32" := by
  refine ⟨by decide, by decide, by decide⟩

end TithiBot
